import Mathlib

/-!
Verification development for `src/dexscanner_monitor.py`.

The script is shallowly embedded: Python dictionaries coming from the
market-data API are modelled as association lists of `PyVal` values,
floating point numbers as rationals (the claims only evaluate the
formatters at inputs where decimal rounding of a rational and binary
rounding of a double agree), SQLite tables as Lean lists of row
structures, wall-clock time as a rational number of seconds carried in an
environment, and the network as environment functions from a token id to
the fetched payload.  Exceptions are modelled with `Except String`.
-/

namespace DexMonitor

/-- A scalar Python value as it appears in a JSON payload. -/
inductive PyLeaf where
  | vNone : PyLeaf
  | vBool (b : Bool) : PyLeaf
  | vNum (q : ℚ) : PyLeaf
  | vStr (s : String) : PyLeaf
deriving DecidableEq

/-- A Python value stored under a key of a payload dictionary: a scalar or a
nested dictionary of scalars (the only nesting the script's payloads use is
`details["holders"]["top10"]`). -/
inductive PyVal where
  | leaf (v : PyLeaf) : PyVal
  | dict (fields : List (String × PyLeaf)) : PyVal
deriving DecidableEq

/-- A payload dictionary (`token_raw`, `details_raw`, ...). -/
abbrev PyDict := List (String × PyVal)

/-- First-match association-list lookup, the model of `d[key]` presence. -/
def lookupField {α : Type} : List (String × α) → String → Option α
  | [], _ => Option.none
  | (k, v) :: rest, key => if k = key then some v else lookupField rest key

/-- `d.get(key, dflt)`. -/
def pyGet (d : PyDict) (key : String) (dflt : PyVal) : PyVal :=
  (lookupField d key).getD dflt

/-- Python truthiness of a value (`if not x`). -/
def pyTruthy : PyVal → Bool
  | .leaf .vNone => false
  | .leaf (.vBool b) => b
  | .leaf (.vNum q) => decide (q ≠ 0)
  | .leaf (.vStr s) => !s.isEmpty
  | .dict fs => !fs.isEmpty

/-- Numeric reading of a value, for Python arithmetic and `== 0` tests:
numbers are themselves, booleans coerce to 0/1, everything else raises
`TypeError` in arithmetic (modelled as `Option.none`). -/
def pyNum : PyVal → Option ℚ
  | .leaf (.vNum q) => some q
  | .leaf (.vBool b) => some (if b then 1 else 0)
  | _ => Option.none

/-! ### Characters and substring search

Python's `"needle" in hay` on strings is substring containment; the script
uses it (lower-cased) for the platform-marker filter and for the
mint-function heuristic over `str(details)`.  Strings are searched as
`List Char`. -/

/-- Whether `needle` is a prefix of `hay`. -/
def matchesPre : List Char → List Char → Bool
  | [], _ => true
  | _ :: _, [] => false
  | a :: as, b :: bs => a == b && matchesPre as bs

/-- Whether `needle` occurs contiguously in `hay` (`needle in hay`). -/
def hasSubstr : List Char → List Char → Bool
  | needle, [] => matchesPre needle []
  | needle, c :: t => matchesPre needle (c :: t) || hasSubstr needle t

/-- `s.lower()`, ASCII case folding. -/
def lowerChars (s : List Char) : List Char := s.map Char.toLower

/-! ### Python `repr`/`str` of a payload dictionary

`SecurityValidator.validate_token` decides the mint flag by substring search
over `str(token_details)`; the rendering of keys is what the search can hit.
Braces and quotes are built from code points. -/

/-- The single-quote character used by Python `repr` around keys/strings. -/
def sq : Char := Char.ofNat 39

/-- Opening brace of a rendered dictionary. -/
def obr : Char := Char.ofNat 123

/-- Closing brace of a rendered dictionary. -/
def cbr : Char := Char.ofNat 125

/-- `repr` of a scalar.  Numbers are rendered through `toString` on ℚ; no
claim depends on the exact digits of a numeric value. -/
def leafRepr : PyLeaf → List Char
  | .vNone => "None".data
  | .vBool true => "True".data
  | .vBool false => "False".data
  | .vNum q => (toString q).data
  | .vStr s => sq :: s.data ++ [sq]

/-- One `'key': value` entry of a rendered dictionary. -/
def entryRepr (k : String) (v : List Char) : List Char :=
  sq :: k.data ++ sq :: ':' :: ' ' :: v

/-- Comma-space interleaving of rendered entries. -/
def joinFields : List (List Char) → List Char
  | [] => []
  | [x] => x
  | x :: y :: rest => x ++ ',' :: ' ' :: joinFields (y :: rest)

/-- `repr` of a value (scalar or nested dictionary). -/
def valRepr : PyVal → List Char
  | .leaf v => leafRepr v
  | .dict fs => obr :: joinFields (fs.map fun e => entryRepr e.1 (leafRepr e.2)) ++ [cbr]

/-- `str(d)` of a payload dictionary. -/
def pyStr (d : PyDict) : List Char :=
  obr :: joinFields (d.map fun e => entryRepr e.1 (valRepr e.2)) ++ [cbr]

/-! ### Number parsing and decimal formatting -/

/-- The numeric value of a list of decimal digit characters, `Option.none`
when empty or containing a non-digit. -/
def parseDigits (cs : List Char) : Option ℕ :=
  if cs.isEmpty then Option.none
  else if cs.all (fun c => c.isDigit) then
    some (cs.foldl (fun n c => n * 10 + (c.toNat - 48)) 0)
  else Option.none

/-- Models `float(s)` for plain decimal literals: optional sign, an integer
part and/or a fractional part around one dot.  Scientific notation and the
other exotic spellings `float` accepts are outside the model; the script
only parses percentage strings such as `"85"` or `"8.5"`. -/
def parseDecimal (s : String) : Option ℚ :=
  let cs := s.data
  let sgn : ℚ := if cs.head? = some '-' then -1 else 1
  let rest := if cs.head? = some '-' || cs.head? = some '+' then cs.tail else cs
  match rest.span (fun c => c ≠ '.') with
  | (intPart, []) => (parseDigits intPart).map (fun n => sgn * n)
  | (intPart, _dot :: frac) =>
    match intPart, frac with
    | [], [] => Option.none
    | [], f => (parseDigits f).map fun m => sgn * ((m : ℚ) / 10 ^ f.length)
    | i, [] => (parseDigits i).map fun n => sgn * n
    | i, f => match parseDigits i, parseDigits f with
      | some n, some m => some (sgn * ((n : ℚ) + (m : ℚ) / 10 ^ f.length))
      | _, _ => Option.none

/-- Python's banker's rounding (`round`, and the rounding of `format`):
round to nearest, ties to the even integer. -/
def pyRound (q : ℚ) : ℤ :=
  let f : ℤ := ⌊q⌋
  if q - f < 1/2 then f
  else if (1 : ℚ)/2 < q - f then f + 1
  else if f % 2 = 0 then f else f + 1

/-- Digits of a natural number left-padded with zeros to `len` places. -/
def padZeros (n : ℕ) (len : ℕ) : String :=
  let s := toString n
  String.mk (List.replicate (len - s.length) '0') ++ s

/-- `f"{q:.{d}f}"`: fixed-point rendering of a rational with `d` decimal
places, exact decimal rounding standing in for the double rounding of
CPython's `format`. -/
def fmtDec (q : ℚ) (d : ℕ) : String :=
  let n : ℤ := pyRound (|q| * (10 : ℚ) ^ d)
  let sign := if q < 0 then "-" else ""
  if d = 0 then sign ++ toString n
  else sign ++ toString (n / (10 : ℤ) ^ d) ++ "." ++ padZeros (n % (10 : ℤ) ^ d).toNat d

/-! ### `DexscannerMonitor._format_number` and friends -/

/-- `float(x)` of a payload value: numbers and booleans convert, plain
decimal strings parse, `None`/dicts raise (`Option.none`, absorbed by the
caller's `except`). -/
def pyFloat : PyVal → Option ℚ
  | .leaf (.vNum q) => some q
  | .leaf (.vBool b) => some (if b then 1 else 0)
  | .leaf (.vStr s) => parseDecimal s
  | _ => Option.none

/-- The numeric branch ladder of `_format_number` after `float(number)`
succeeded. -/
def formatScaled (number : ℚ) (decimals : ℕ) : String :=
  if number < 1000 then fmtDec number decimals
  else if number < 1000000 then fmtDec (number / 1000) decimals ++ "K"
  else if number < 1000000000 then fmtDec (number / 1000000) decimals ++ "M"
  else fmtDec (number / 1000000000) decimals ++ "B"

/-- `_format_number(number, decimals=1)`: "0" for `None` and for any value
`float` rejects, otherwise the K/M/B ladder. -/
def format_number (v : PyVal) (decimals : ℕ := 1) : String :=
  match v with
  | .leaf .vNone => "0"
  | _ =>
    match pyFloat v with
    | Option.none => "0"
    | some number => formatScaled number decimals

/-- `_calculate_percentage(part, whole)`: 0 when `whole == 0`, otherwise
`round(part / whole * 100)`; any `TypeError` of the arithmetic is absorbed
to 0 by the `except` clause. -/
def calculate_percentage (part whole : PyVal) : ℤ :=
  match pyNum whole with
  | some w =>
    if w = 0 then 0
    else
      match pyNum part with
      | some p => pyRound (p / w * 100)
      | Option.none => 0
  | Option.none => 0

/-- `_calculate_multiplier(current, reference)`: "1x" when `reference == 0`
or on any exception, otherwise `f"{current / reference:.1f}x"`. -/
def calculate_multiplier (current reference : PyVal) : String :=
  match pyNum reference with
  | some r =>
    if r = 0 then "1x"
    else
      match pyNum current with
      | some c => fmtDec (c / r) 1 ++ "x"
      | Option.none => "1x"
  | Option.none => "1x"

/-! ### Wall-clock time

`datetime.now()` and ISO-8601 parsing live outside the core; they are
carried as an environment: `now` in seconds, `parseIso` returning the
parsed instant in seconds or `Option.none` where `fromisoformat` raises. -/

structure TimeEnv where
  now : ℚ
  parseIso : String → Option ℚ

/-- `DexscannerMonitor._format_age(timestamp)`: "Unknown" for falsy input
and (through the internal `try`/`except`) for anything that fails to parse;
otherwise a days/hours/minutes rendering of `now - created`.  `delta.days`
and `delta.seconds` follow `timedelta` normalisation (floor against
86400-second days). -/
def format_age (env : TimeEnv) (timestamp : PyVal) : String :=
  if !pyTruthy timestamp then "Unknown"
  else
    match timestamp with
    | .leaf (.vStr s) =>
      match env.parseIso (s.replace "Z" "+00:00") with
      | some created =>
        let total : ℚ := env.now - created
        let days : ℤ := ⌊total / 86400⌋
        let secs : ℤ := ⌊total⌋ - days * 86400
        if 0 < days then s!"{days}d {secs / 3600}h"
        else if 0 < secs / 3600 then s!"{secs / 3600}h {secs % 3600 / 60}m"
        else s!"{secs % 3600 / 60}m"
      | Option.none => "Unknown"
    | _ => "Unknown"

/-! ### `SecurityValidator.validate_token` -/

/-- The outcome of one security validation. -/
structure SecurityData where
  has_honey_pot : Bool
  has_mint_function : Bool
  has_proxy : Bool
  has_suspicious_holders : Bool
deriving DecidableEq

/-- `SecurityValidator.validate_token(token_details)`.  The mint flag is a
substring search over `str(token_details).lower()`; the holder flag reads
`token_details["holders"]["top10"]` when present.  `"top10" in x` is a key
test when `x` is a dictionary, a substring test when it is a string and a
`TypeError` otherwise; `.replace`/`float` on the top10 value raise on
non-strings and unparseable strings.  Honeypot and proxy are never set. -/
def validate_token (token_details : PyDict) : Except String SecurityData :=
  let reprLower := lowerChars (pyStr token_details)
  let mint := hasSubstr "mint".data reprLower && hasSubstr "enabled".data reprLower
  match lookupField token_details "holders" with
  | Option.none => .ok ⟨false, mint, false, false⟩
  | some (.dict holders) =>
    match lookupField holders "top10" with
    | Option.none => .ok ⟨false, mint, false, false⟩
    | some (.vStr s) =>
      match parseDecimal (s.replace "%" "") with
      | some top10_percentage => .ok ⟨false, mint, false, decide (top10_percentage > 80)⟩
      | Option.none => .error "ValueError"
    | some _ => .error "AttributeError"
  | some (.leaf (.vStr hs)) =>
    if hasSubstr "top10".data hs.data then .error "TypeError"
    else .ok ⟨false, mint, false, false⟩
  | some _ => .error "TypeError"

/-! ### `DexscannerMonitor.parse_token_details` -/

/-- The `token_data` dictionary built by `parse_token_details`: raw
`get`-results keep their payload value, derived fields keep their computed
type. -/
structure TokenData where
  id : PyVal
  pair_name : PyVal
  deployer : PyVal
  owner_renounced : PyVal
  chain : String
  age : String
  launch_time : PyVal
  mint_enabled : String
  liq_burned : PyVal
  market_cap : String
  liquidity : String
  liq_percentage : ℤ
  price : String
  price_change_24h : PyVal
  volume_24h : String
  buys : PyVal
  sells : PyVal
  launch_mc : String
  launch_mc_multiplier : String
  ath : String
  ath_multiplier : String
  source : String
  source_link : String
  transaction_count : PyVal
  holders_count : PyVal
  top10_percentage : PyVal
  airdrops : PyVal
  airdrops_percentage : PyVal
  block0_snipes_percentage : PyVal
  block0_snipes_amount : PyVal
  fresh_wallets : PyVal
  fresh_wallets_percentage : PyVal
  team_wallets_percentage : PyVal
  team_wallets_amount : PyVal
  deployer_amount : PyVal
  deployer_percentage : PyVal
  website : PyVal
  initial_mc : PyVal
  initial_liq : PyVal
  security_warnings : List String
deriving DecidableEq

/-- The `performance_data` dictionary extracted for the store. -/
structure PerformanceData where
  price : PyVal
  market_cap : PyVal
  volume_24h : PyVal
  holders : PyVal
deriving DecidableEq

/-- The body of `parse_token_details` once a source matched.  The Python
code fills `token_data` first and runs the validator afterwards; record
building is total in the model, so the validator (the only fallible part)
is sequenced first and its result feeds the `security_warnings` list, which
is empty exactly when the code would not attach the key. -/
def build_token_data (env : TimeEnv) (token_raw details_raw : PyDict) (source : String) :
    Except String (Option (TokenData × PerformanceData × SecurityData)) :=
  match validate_token details_raw with
  | .error e => .error e
  | .ok security_data =>
    let token_data : TokenData :=
      { id := pyGet token_raw "id" (.leaf (.vStr ""))
        pair_name := pyGet token_raw "name" (.leaf (.vStr "Unknown"))
        deployer := pyGet details_raw "deployer" (.leaf (.vStr "Unknown"))
        owner_renounced := pyGet details_raw "ownerRenounced" (.leaf (.vBool false))
        chain := "SOL"
        age := format_age env (pyGet token_raw "createdAt" (.leaf .vNone))
        launch_time := pyGet token_raw "createdAt" (.leaf .vNone)
        mint_enabled :=
          if !pyTruthy (pyGet details_raw "mintEnabled" (.leaf (.vBool true))) then "No ✅"
          else "Yes ⚠️"
        liq_burned := pyGet details_raw "liquidityBurned" (.leaf (.vNum 0))
        market_cap := format_number (pyGet token_raw "marketCap" (.leaf (.vNum 0)))
        liquidity := format_number (pyGet token_raw "liquidity" (.leaf (.vNum 0)))
        liq_percentage :=
          calculate_percentage (pyGet token_raw "liquidity" (.leaf (.vNum 0)))
            (pyGet token_raw "marketCap" (.leaf (.vNum 0)))
        price := format_number (pyGet token_raw "price" (.leaf (.vNum 0))) 8
        price_change_24h := pyGet token_raw "priceChange24h" (.leaf (.vNum 0))
        volume_24h := format_number (pyGet token_raw "volume24h" (.leaf (.vNum 0)))
        buys := pyGet details_raw "buys24h" (.leaf (.vNum 0))
        sells := pyGet details_raw "sells24h" (.leaf (.vNum 0))
        launch_mc := format_number (pyGet details_raw "launchMarketCap" (.leaf (.vNum 0)))
        launch_mc_multiplier :=
          calculate_multiplier (pyGet token_raw "marketCap" (.leaf (.vNum 0)))
            (pyGet details_raw "launchMarketCap" (.leaf (.vNum 0)))
        ath := format_number (pyGet details_raw "athMarketCap" (.leaf (.vNum 0)))
        ath_multiplier :=
          calculate_multiplier (pyGet details_raw "athMarketCap" (.leaf (.vNum 0)))
            (pyGet token_raw "marketCap" (.leaf (.vNum 0)))
        source := source
        source_link := "https://" ++ source
        transaction_count := pyGet details_raw "transactionCount" (.leaf (.vNum 0))
        holders_count := pyGet details_raw "holdersCount" (.leaf (.vNum 0))
        top10_percentage := pyGet details_raw "top10HoldersPercentage" (.leaf (.vNum 0))
        airdrops := pyGet details_raw "airdropsCount" (.leaf (.vNum 0))
        airdrops_percentage := pyGet details_raw "airdropsPercentage" (.leaf (.vNum 0))
        block0_snipes_percentage := pyGet details_raw "block0SnipesPercentage" (.leaf (.vNum 0))
        block0_snipes_amount := pyGet details_raw "block0SnipesAmount" (.leaf (.vNum 0))
        fresh_wallets := pyGet details_raw "freshWalletsCount" (.leaf (.vNum 0))
        fresh_wallets_percentage := pyGet details_raw "freshWalletsPercentage" (.leaf (.vNum 0))
        team_wallets_percentage := pyGet details_raw "teamWalletsPercentage" (.leaf (.vNum 0))
        team_wallets_amount := pyGet details_raw "teamWalletsAmount" (.leaf (.vNum 0))
        deployer_amount := pyGet details_raw "deployerAmount" (.leaf (.vNum 0))
        deployer_percentage := pyGet details_raw "deployerPercentage" (.leaf (.vNum 0))
        website := pyGet details_raw "website" (.leaf (.vStr ("https://" ++ source)))
        initial_mc := pyGet token_raw "marketCap" (.leaf (.vNum 0))
        initial_liq := pyGet token_raw "liquidity" (.leaf (.vNum 0))
        security_warnings :=
          (if security_data.has_honey_pot then ["Potential honeypot detected"] else []) ++
          (if security_data.has_mint_function then ["Token has mint function enabled"] else []) ++
          (if security_data.has_proxy then ["Contract may have proxy capabilities"] else []) ++
          (if security_data.has_suspicious_holders then
              ["Suspicious holder concentration detected"] else []) }
    let performance_data : PerformanceData :=
      { price := pyGet token_raw "price" (.leaf (.vNum 0))
        market_cap := pyGet token_raw "marketCap" (.leaf (.vNum 0))
        volume_24h := pyGet token_raw "volume24h" (.leaf (.vNum 0))
        holders := pyGet details_raw "holdersCount" (.leaf (.vNum 0)) }
    .ok (some (token_data, performance_data, security_data))

/-- `DexscannerMonitor.parse_token_details(token_raw, details_raw=None)`:
the platform-source filter followed by record building.  `.ok Option.none`
is the filter's `return None`; `.lower()` on a non-string name raises. -/
def parse_token_details (env : TimeEnv) (token_raw : PyDict) (details_raw : PyDict := []) :
    Except String (Option (TokenData × PerformanceData × SecurityData)) :=
  match lookupField token_raw "name" with
  | Option.none => .ok Option.none
  | some (.leaf (.vStr name)) =>
    let name_lower := lowerChars name.data
    if hasSubstr "pump.fun".data name_lower then
      build_token_data env token_raw details_raw "pump.fun"
    else if hasSubstr "pump.swap".data name_lower then
      build_token_data env token_raw details_raw "pump.swap"
    else .ok Option.none
  | some _ => .error "AttributeError"

/-! ### The SQLite store (`Database`)

Tables are lists of rows in insertion order.  Timestamps (ISO strings in
the schema, compared lexicographically, which for one format agrees with
chronological order) are modelled as rational seconds.  SQL `=` treats
`NULL` as equal to nothing, which matters because `token.get("id")` can be
Python `None` while the stored id defaults to `""`. -/

/-- SQL equality of two stored/bound values: `NULL = x` never holds. -/
def sqlEq (a b : PyVal) : Bool :=
  match a, b with
  | .leaf .vNone, _ => false
  | _, .leaf .vNone => false
  | _, _ => a == b

/-- A row of the `tokens` table. -/
structure TokenRow where
  id : PyVal
  pair_name : PyVal
  deployer : PyVal
  owner_renounced : ℤ
  launch_time : PyVal
  mint_enabled : ℤ
  liq_burned : PyVal
  chain : String
  initial_mc : PyVal
  initial_liq : PyVal
  website : PyVal
  source : String
  detected_at : ℚ
  is_safe : ℤ
deriving DecidableEq

/-- A row of the `token_performance` table. -/
structure PerformanceRow where
  id : PyVal
  timestamp : ℚ
  price : PyVal
  market_cap : PyVal
  volume_24h : PyVal
  holders : PyVal
deriving DecidableEq

/-- A row of the `security_checks` table. -/
structure SecurityRow where
  id : PyVal
  has_honey_pot : Bool
  has_mint_function : Bool
  has_proxy : Bool
  has_suspicious_holders : Bool
  check_time : ℚ
deriving DecidableEq

/-- The three tables of `dexscanner_monitor.db`. -/
structure Database where
  tokens : List TokenRow
  token_performance : List PerformanceRow
  security_checks : List SecurityRow
deriving DecidableEq

/-- `Database.token_exists(token_id)`. -/
def token_exists (db : Database) (token_id : PyVal) : Bool :=
  db.tokens.any fun r => sqlEq r.id token_id

/-- `Database.add_token(token_data)`: a plain `INSERT`, raising
`IntegrityError` when the primary key is already present.  The row stores
`1 if owner_renounced else 0`, `0 if mint_enabled == "No ✅" else 1`,
`detected_at = now` and `is_safe = 0`. -/
def add_token (db : Database) (now : ℚ) (t : TokenData) : Except String Database :=
  if db.tokens.any fun r => sqlEq r.id t.id then .error "IntegrityError"
  else
    .ok { db with
      tokens := db.tokens ++
        [{ id := t.id
           pair_name := t.pair_name
           deployer := t.deployer
           owner_renounced := if pyTruthy t.owner_renounced then 1 else 0
           launch_time := t.launch_time
           mint_enabled := if t.mint_enabled = "No ✅" then 0 else 1
           liq_burned := t.liq_burned
           chain := t.chain
           initial_mc := t.initial_mc
           initial_liq := t.initial_liq
           website := t.website
           source := t.source
           detected_at := now
           is_safe := 0 }] }

/-- `Database.update_token_performance(token_id, performance_data)`: an
append-only `INSERT` keyed on `(id, timestamp)`, raising on a duplicate
key (the schema's foreign key is not enforced — sqlite3 leaves foreign
keys off by default). -/
def update_token_performance (db : Database) (now : ℚ) (token_id : PyVal)
    (p : PerformanceData) : Except String Database :=
  if db.token_performance.any fun r => sqlEq r.id token_id && r.timestamp == now then
    .error "IntegrityError"
  else
    .ok { db with
      token_performance := db.token_performance ++
        [{ id := token_id, timestamp := now, price := p.price, market_cap := p.market_cap
           volume_24h := p.volume_24h, holders := p.holders }] }

/-- `Database.update_security_check(token_id, security_data)`:
`INSERT OR REPLACE` into `security_checks`, then
`UPDATE tokens SET is_safe = not any(flags) WHERE id = token_id`. -/
def update_security_check (db : Database) (now : ℚ) (token_id : PyVal)
    (s : SecurityData) : Database :=
  let is_safe :=
    !(s.has_honey_pot || s.has_mint_function || s.has_proxy || s.has_suspicious_holders)
  { db with
    security_checks :=
      (db.security_checks.filter fun r => !sqlEq r.id token_id) ++
        [{ id := token_id, has_honey_pot := s.has_honey_pot
           has_mint_function := s.has_mint_function, has_proxy := s.has_proxy
           has_suspicious_holders := s.has_suspicious_holders, check_time := now }]
    tokens := db.tokens.map fun r =>
      if sqlEq r.id token_id then { r with is_safe := if is_safe then 1 else 0 } else r }

/-- Insertion into a timestamp-sorted list (for `ORDER BY timestamp ASC`). -/
def insertRow (r : PerformanceRow) : List PerformanceRow → List PerformanceRow
  | [] => [r]
  | x :: xs => if decide (r.timestamp ≤ x.timestamp) then r :: x :: xs else x :: insertRow r xs

/-- Sort rows by ascending timestamp. -/
def sortRows : List PerformanceRow → List PerformanceRow
  | [] => []
  | x :: xs => insertRow x (sortRows xs)

/-- `Database.get_token_performance_history(token_id, hours)`: the rows of
the last `hours` hours ordered oldest first, `Option.none` when there are
none (the Python function returns `None` for an empty result). -/
def get_token_performance_history (db : Database) (now : ℚ) (token_id : PyVal)
    (hours : ℚ) : Option (List PerformanceRow) :=
  let time_threshold := now - hours * 3600
  let results := sortRows (db.token_performance.filter fun r =>
    sqlEq r.id token_id && decide (time_threshold ≤ r.timestamp))
  if results.isEmpty then Option.none else some results

/-- `Database.get_tokens_for_performance_check()`: the tokens detected in
the past week (`timedelta(days=7)`). -/
def get_tokens_for_performance_check (db : Database) (now : ℚ) : List TokenRow :=
  db.tokens.filter fun r => decide (now - 7 * 86400 ≤ r.detected_at)

/-! ### `DexscannerAPI` retry policy

A fetch is driven by the sequence of per-attempt outcomes the network
would produce; the model returns the fetched value (or `Option.none`) and
the list of backoff sleeps taken, in order. -/

/-- One network attempt: a parsed body, a `requests.Timeout`, or any other
`requests.RequestException`. -/
inductive FetchOutcome (α : Type) where
  | success (v : α) : FetchOutcome α
  | timeout : FetchOutcome α
  | requestError : FetchOutcome α

/-- The shared `while retries < max_retries` loop of both fetchers:
`attempts n` is the outcome of the attempt made with `retries = n`,
`backoff r` the sleep taken after the timeout that set `retries` to `r`.
Returns the result and the sleeps, in order. -/
def retryFetch {α : Type} (attempts : ℕ → FetchOutcome α) (backoff : ℕ → ℕ) :
    ℕ → ℕ → Option α × List ℕ
  | _, 0 => (Option.none, [])
  | retries, fuel + 1 =>
    match attempts retries with
    | .success v => (some v, [])
    | .requestError => (Option.none, [])
    | .timeout =>
      let rest := retryFetch attempts backoff (retries + 1) fuel
      (rest.1, backoff (retries + 1) :: rest.2)

/-- `DexscannerAPI.get_new_listings`: `max_retries=5`, backoff
`3 + retries * 3` seconds. -/
def get_new_listings {α : Type} (attempts : ℕ → FetchOutcome α) (max_retries : ℕ := 5) :
    Option α × List ℕ :=
  retryFetch attempts (fun retries => 3 + retries * 3) 0 max_retries

/-- `DexscannerAPI.get_token_details`: `max_retries=3`, backoff
`2 ** retries` seconds. -/
def get_token_details {α : Type} (attempts : ℕ → FetchOutcome α) (max_retries : ℕ := 3) :
    Option α × List ℕ :=
  retryFetch attempts (fun retries => 2 ^ retries) 0 max_retries

/-! ### The discovery cycle (`check_new_listings`) and main loop (`run`) -/

/-- The environment one cycle runs in: the clock and the per-token detail
fetch.  `details_of id` models `get_token_details(id)` composed with the
`if not token_details or "data" not in token_details: continue` guard and
the extraction of `token_details.get("data")`: `Option.none` covers a
failed fetch, a falsy response and a missing `"data"` key. -/
structure CycleEnv where
  time : TimeEnv
  details_of : PyVal → Option PyDict

/-- The monitor's mutable state: the store and the in-memory
`processed_tokens` set. -/
structure MonitorState where
  db : Database
  processed_tokens : List PyVal
deriving DecidableEq

/-- What one piece of the cycle did: the state it left, the ids passed to
`get_token_details`, the discovery notifications sent (recorded as the
parsed record — alert body formatting is outside the core), and the
exception that escaped, if any. -/
structure StepTrace where
  state : MonitorState
  detail_fetches : List PyVal
  alerts : List TokenData
  error : Option String
deriving DecidableEq

/-- The body of `check_new_listings`' `for token in listings` loop for one
candidate.  A skip (`continue`) leaves the state unchanged; an uncaught
exception is recorded in `error` together with the writes that already
happened. -/
def process_listing (env : CycleEnv) (st : MonitorState) (token : PyDict) : StepTrace :=
  let token_id := pyGet token "id" (.leaf .vNone)
  if st.processed_tokens.contains token_id || token_exists st.db token_id then
    ⟨st, [], [], Option.none⟩
  else
    match env.details_of token_id with
    | Option.none => ⟨st, [token_id], [], Option.none⟩
    | some details_raw =>
      match parse_token_details env.time token details_raw with
      | .error e => ⟨st, [token_id], [], some e⟩
      | .ok Option.none => ⟨st, [token_id], [], Option.none⟩
      | .ok (some (token_data, performance_data, security_data)) =>
        let st₁ : MonitorState := { st with processed_tokens := token_id :: st.processed_tokens }
        match add_token st₁.db env.time.now token_data with
        | .error e => ⟨st₁, [token_id], [], some e⟩
        | .ok db₁ =>
          match update_token_performance db₁ env.time.now token_id performance_data with
          | .error e => ⟨{ st₁ with db := db₁ }, [token_id], [], some e⟩
          | .ok db₂ =>
            let db₃ := update_security_check db₂ env.time.now token_id security_data
            ⟨{ st₁ with db := db₃ }, [token_id], [token_data], Option.none⟩

/-- `check_new_listings` over the candidate list of one poll: tokens are
processed in order and, the loop body having no `try` of its own, the
first uncaught exception aborts the remaining candidates. -/
def check_new_listings (env : CycleEnv) : MonitorState → List PyDict → StepTrace
  | st, [] => ⟨st, [], [], Option.none⟩
  | st, token :: rest =>
    let tr := process_listing env st token
    match tr.error with
    | some e => ⟨tr.state, tr.detail_fetches, tr.alerts, some e⟩
    | Option.none =>
      let tr' := check_new_listings env tr.state rest
      ⟨tr'.state, tr.detail_fetches ++ tr'.detail_fetches, tr.alerts ++ tr'.alerts, tr'.error⟩

/-- `CHECK_INTERVAL` (seconds). -/
def CHECK_INTERVAL : ℕ := 15

/-- One pass of `run`'s `while True` body: `check_new_listings` under the
`except Exception` guard.  The pass always returns — an escaped exception
is logged and answered with a doubled sleep, never with termination. -/
def run_iteration (env : CycleEnv) (st : MonitorState) (tokens : List PyDict) :
    MonitorState × ℕ :=
  let tr := check_new_listings env st tokens
  match tr.error with
  | Option.none => (tr.state, CHECK_INTERVAL)
  | some _ => (tr.state, CHECK_INTERVAL * 2)

/-! ### The performance loop (`monitor_performance`) -/

/-- `PERFORMANCE_INTERVALS` (hours). -/
def PERFORMANCE_INTERVALS : List ℕ := [1, 6, 24]

/-- The checkpoint loop at the end of `monitor_performance`'s per-token
body: for the first interval within `0.17` hours of the token's age, send
one performance update when the stored history for that interval holds at
least two samples (`if history and len(history) >= 2`, with `history_len`
standing for the length of the queried history, 0 when the query returns
`None`); `break` ends the scan after that first match either way. -/
def checkpoint_scan (hours_since_detection : ℚ) (history_len : ℕ → ℕ) :
    List ℕ → List ℕ
  | [] => []
  | interval :: rest =>
    if |hours_since_detection - (interval : ℚ)| < 17/100 then
      if 2 ≤ history_len interval then [interval] else []
    else checkpoint_scan hours_since_detection history_len rest

/-- `monitor_performance`'s body for one tracked token: refetch, reparse
(the rebuilt `token_raw` carries the stored id and pair name), append a
sample, then run the checkpoint scan against the post-append history.
Returns the store, the `(token id, interval)` performance alerts sent and
the exception that escaped, if any. -/
def monitor_token (env : CycleEnv) (db : Database) (row : TokenRow) :
    Database × List (PyVal × ℕ) × Option String :=
  let hours_since_detection := (env.time.now - row.detected_at) / 3600
  match env.details_of row.id with
  | Option.none => (db, [], Option.none)
  | some details_raw =>
    match parse_token_details env.time [("id", row.id), ("name", row.pair_name)] details_raw with
    | .error e => (db, [], some e)
    | .ok Option.none => (db, [], Option.none)
    | .ok (some (_, performance_data, _)) =>
      match update_token_performance db env.time.now row.id performance_data with
      | .error e => (db, [], some e)
      | .ok db' =>
        let history_len := fun interval : ℕ =>
          ((get_token_performance_history db' env.time.now row.id (interval : ℚ)).map
            List.length).getD 0
        let alerts := (checkpoint_scan hours_since_detection history_len
          PERFORMANCE_INTERVALS).map fun interval => (row.id, interval)
        (db', alerts, Option.none)

/-- `monitor_performance` over the tracked tokens of one cycle; as in the
discovery loop, an uncaught exception aborts the remaining tokens. -/
def monitor_performance (env : CycleEnv) :
    Database → List TokenRow → Database × List (PyVal × ℕ) × Option String
  | db, [] => (db, [], Option.none)
  | db, row :: rest =>
    let (db', alerts, err) := monitor_token env db row
    match err with
    | some e => (db', alerts, some e)
    | Option.none =>
      let (db'', alerts', err') := monitor_performance env db' rest
      (db'', alerts ++ alerts', err')

/-! ### Observations and concrete fixtures used by the statements below -/

/-- The `is_safe` column of the (first) row of `tokens` holding `token_id`. -/
def db_is_safe (db : Database) (token_id : PyVal) : Option ℤ :=
  (db.tokens.find? fun r => sqlEq r.id token_id).map TokenRow.is_safe

/-- The condition under which `validate_token`'s holder check cannot raise:
`holders`, when present, is a dictionary whose `top10` value, when present,
is a string `float` accepts after stripping `%`; a string `holders` value
must not contain `"top10"`. -/
def holders_wellformed (details_raw : PyDict) : Bool :=
  match lookupField details_raw "holders" with
  | Option.none => true
  | some (.dict holders) =>
    match lookupField holders "top10" with
    | Option.none => true
    | some (.vStr s) => (parseDecimal (s.replace "%" "")).isSome
    | some _ => false
  | some (.leaf (.vStr hs)) => !hasSubstr "top10".data hs.data
  | some _ => false

/-- The `mint_enabled` label of a successful, accepted parse. -/
def parsed_mint_label (env : TimeEnv) (token_raw details_raw : PyDict) : Option String :=
  match parse_token_details env token_raw details_raw with
  | .ok (some (token_data, _, _)) => some token_data.mint_enabled
  | _ => Option.none

/-- A clock whose `fromisoformat` always raises; the fixtures below never
parse a timestamp. -/
def env0 : TimeEnv := ⟨0, fun _ => Option.none⟩

/-- A cycle environment over `env0` in which every detail fetch succeeds
with an empty `data` payload. -/
def envEmptyDetails : CycleEnv := ⟨env0, fun _ => some []⟩

/-- A stored token row whose id is the empty string — exactly what
`add_token` persists for a listing with no `"id"` key. -/
def rowBlankId : TokenRow :=
  { id := .leaf (.vStr ""), pair_name := .leaf (.vStr "x pump.fun"), deployer := .leaf .vNone
    owner_renounced := 0, launch_time := .leaf .vNone, mint_enabled := 1
    liq_burned := .leaf .vNone, chain := "SOL", initial_mc := .leaf .vNone
    initial_liq := .leaf .vNone, website := .leaf .vNone, source := "pump.fun"
    detected_at := 0, is_safe := 0 }

/-- A store already holding `rowBlankId`. -/
def dbBlankId : Database := ⟨[rowBlankId], [], []⟩

/-- A candidate listing with no `"id"` key: `token.get("id")` is `None`,
which neither the processed-set test nor the SQL existence test can match,
while the parsed record's id defaults to `""`. -/
def tokenNoId : PyDict := [("name", .leaf (.vStr "a pump.fun"))]

/-- A fresh well-formed candidate listing processed after `tokenNoId`. -/
def tokenB : PyDict := [("id", .leaf (.vStr "b")), ("name", .leaf (.vStr "b pump.fun"))]

/-! ## Theorems -/

/-- C8: the percentage and multiplier computations are total — the
division-by-zero branch is unreachable: for every `part`,
`_calculate_percentage(part, 0) = 0`; for every `current`,
`_calculate_multiplier(current, 0) = "1x"`; and with nonzero denominators
`_calculate_percentage(50, 200) = 25` and
`_calculate_multiplier(250, 100) = "2.5x"`. -/
theorem calculate_division_guards :
    (∀ part : PyVal, calculate_percentage part (.leaf (.vNum 0)) = 0) ∧
    calculate_percentage (.leaf (.vNum 50)) (.leaf (.vNum 200)) = 25 ∧
    (∀ current : PyVal, calculate_multiplier current (.leaf (.vNum 0)) = "1x") ∧
    calculate_multiplier (.leaf (.vNum 250)) (.leaf (.vNum 100)) = "2.5x" := by
  refine ⟨?_, ?_, ?_, ?_⟩
  · intro part; simp [calculate_percentage, pyNum]
  · with_unfolding_all rfl
  · intro current; simp [calculate_multiplier, pyNum]
  · with_unfolding_all rfl

/-- C9: `_format_number` renders values below 1000 unscaled with one
decimal place, values below 1e6 scaled by 1e3 with suffix `K`, values
below 1e9 scaled by 1e6 with suffix `M`, and larger values scaled by 1e9
with suffix `B`; concretely 950 ↦ "950.0", 1500 ↦ "1.5K",
2500000 ↦ "2.5M" and 3200000000 ↦ "3.2B". -/
theorem format_number_kmb_ladder :
    format_number (.leaf (.vNum 950)) 1 = "950.0" ∧
    format_number (.leaf (.vNum 1500)) 1 = "1.5K" ∧
    format_number (.leaf (.vNum 2500000)) 1 = "2.5M" ∧
    format_number (.leaf (.vNum 3200000000)) 1 = "3.2B" ∧
    (∀ q : ℚ, q < 1000 → formatScaled q 1 = fmtDec q 1) ∧
    (∀ q : ℚ, 1000 ≤ q → q < 1000000 → formatScaled q 1 = fmtDec (q / 1000) 1 ++ "K") ∧
    (∀ q : ℚ, 1000000 ≤ q → q < 1000000000 →
      formatScaled q 1 = fmtDec (q / 1000000) 1 ++ "M") ∧
    (∀ q : ℚ, 1000000000 ≤ q → formatScaled q 1 = fmtDec (q / 1000000000) 1 ++ "B") := by
  refine ⟨?_, ?_, ?_, ?_, ?_, ?_, ?_, ?_⟩
  · with_unfolding_all rfl
  · with_unfolding_all rfl
  · with_unfolding_all rfl
  · with_unfolding_all rfl
  · intro q h; simp only [formatScaled]; rw [if_pos h]
  · intro q h1 h2
    simp only [formatScaled]; rw [if_neg (not_lt.mpr h1), if_pos h2]
  · intro q h1 h2
    simp only [formatScaled]
    rw [if_neg (not_lt.mpr (le_trans (by norm_num) h1)),
      if_neg (not_lt.mpr h1), if_pos h2]
  · intro q h1
    simp only [formatScaled]
    rw [if_neg (not_lt.mpr (le_trans (by norm_num) h1)),
      if_neg (not_lt.mpr (le_trans (by norm_num) h1)),
      if_neg (not_lt.mpr h1)]

/-- C7: for both fetchers a timeout is retried with strictly increasing
backoff up to the bounded attempt count (5 and 3 attempts; sleeps
6,9,12,15,18 and 2,4,8 seconds), after which the fetch returns no data;
a non-timeout request failure on the first attempt returns no data with
no retry and no sleep. -/
theorem fetch_retry_policy {α : Type} (attempts : ℕ → FetchOutcome α) :
    ((∀ i, attempts i = .timeout) →
      get_new_listings attempts = (Option.none, [6, 9, 12, 15, 18]) ∧
      get_token_details attempts = (Option.none, [2, 4, 8])) ∧
    (attempts 0 = .requestError →
      get_new_listings attempts = (Option.none, []) ∧
      get_token_details attempts = (Option.none, [])) ∧
    List.Chain' (· < ·) [6, 9, 12, 15, 18] ∧ List.Chain' (· < ·) [2, 4, 8] := by
  refine ⟨?_, ?_, by simp [List.chain'_cons], by simp [List.chain'_cons]⟩
  · intro h
    constructor <;> simp [get_new_listings, get_token_details, retryFetch, h]
  · intro h
    constructor <;> simp [get_new_listings, get_token_details, retryFetch, h]

/-- C2: a candidate whose id is already in the in-memory processed set or
already present in the store is skipped before the detail fetch: the step
makes no network call, no store write and no alert, and leaves the state
unchanged. -/
theorem known_listing_skipped (env : CycleEnv) (st : MonitorState) (token : PyDict)
    (h : st.processed_tokens.contains (pyGet token "id" (.leaf .vNone)) = true ∨
      token_exists st.db (pyGet token "id" (.leaf .vNone)) = true) :
    process_listing env st token = ⟨st, [], [], Option.none⟩ := by
  have hc : (st.processed_tokens.contains (pyGet token "id" (.leaf .vNone)) ||
      token_exists st.db (pyGet token "id" (.leaf .vNone))) = true := by
    rcases h with h | h
    · rw [h, Bool.true_or]
    · rw [h, Bool.or_true]
  unfold process_listing
  dsimp only
  rw [hc]
  simp

/-- Witness for C2: a listing whose id sits in the processed set is left
untouched. -/
theorem known_listing_skipped_witness :
    process_listing envEmptyDetails ⟨⟨[], [], []⟩, [PyVal.leaf (.vStr "tok1")]⟩
        [("id", PyVal.leaf (.vStr "tok1"))] =
      ⟨⟨⟨[], [], []⟩, [PyVal.leaf (.vStr "tok1")]⟩, [], [], Option.none⟩ :=
  known_listing_skipped envEmptyDetails ⟨⟨[], [], []⟩, [PyVal.leaf (.vStr "tok1")]⟩
    [("id", PyVal.leaf (.vStr "tok1"))] (Or.inl (by decide))

/-- The checkpoint scan is the first interval within tolerance, alerted
exactly when its history holds at least two samples. -/
theorem checkpoint_scan_eq_find (hours : ℚ) (history_len : ℕ → ℕ) (L : List ℕ) :
    checkpoint_scan hours history_len L =
      match L.find? (fun i : ℕ => decide (|hours - (i : ℚ)| < 17/100)) with
      | Option.none => []
      | some i => if 2 ≤ history_len i then [i] else [] := by
  induction L with
  | nil => rfl
  | cons a t ih =>
    by_cases h : |hours - (a : ℚ)| < 17/100
    · rw [checkpoint_scan, if_pos h, List.find?_cons_of_pos _ (by simpa using h)]
    · rw [checkpoint_scan, if_neg h, List.find?_cons_of_neg _ (by simpa using h), ih]

/-- C1: for every token age and stored history, the checkpoint loop emits
at most one performance alert per cycle; the alert, when emitted, is for
the first checkpoint of {1, 6, 24} hours within the ±0.17 h tolerance of
the age and fires exactly when that checkpoint's lookback history holds at
least two samples; a first match with fewer than two samples emits
nothing.  At age 1 h, two samples yield exactly the 1 h alert, one sample
yields none. -/
theorem checkpoint_alerts_first_match_only (hours : ℚ) (history_len : ℕ → ℕ) :
    (checkpoint_scan hours history_len PERFORMANCE_INTERVALS).length ≤ 1 ∧
    (∀ interval : ℕ,
      checkpoint_scan hours history_len PERFORMANCE_INTERVALS = [interval] ↔
        PERFORMANCE_INTERVALS.find? (fun i : ℕ => decide (|hours - (i : ℚ)| < 17/100)) =
            some interval ∧ 2 ≤ history_len interval) ∧
    (∀ interval : ℕ,
      PERFORMANCE_INTERVALS.find? (fun i : ℕ => decide (|hours - (i : ℚ)| < 17/100)) =
          some interval →
        history_len interval < 2 →
        checkpoint_scan hours history_len PERFORMANCE_INTERVALS = []) ∧
    checkpoint_scan 1 (fun _ => 2) PERFORMANCE_INTERVALS = [1] ∧
    checkpoint_scan 1 (fun _ => 1) PERFORMANCE_INTERVALS = [] := by
  refine ⟨?_, ?_, ?_, by with_unfolding_all rfl, by with_unfolding_all rfl⟩
  · rw [checkpoint_scan_eq_find]
    cases hf : PERFORMANCE_INTERVALS.find? (fun i : ℕ => decide (|hours - (i : ℚ)| < 17/100)) with
    | none => simp
    | some i => by_cases h2 : 2 ≤ history_len i <;> simp [h2]
  · intro interval
    rw [checkpoint_scan_eq_find]
    cases hf : PERFORMANCE_INTERVALS.find? (fun i : ℕ => decide (|hours - (i : ℚ)| < 17/100)) with
    | none => simp
    | some i =>
      by_cases h2 : 2 ≤ history_len i
      · simp only [h2, if_pos]
        constructor
        · rintro h; cases h; exact ⟨rfl, h2⟩
        · rintro ⟨h, _⟩; cases h; rfl
      · simp only [h2, if_neg]
        constructor
        · rintro h; cases h
        · rintro ⟨h, hge⟩; cases h; exact absurd hge h2
  · intro interval hf h2
    rw [checkpoint_scan_eq_find, hf]
    dsimp only
    rw [if_neg (by omega)]

/-- Result of looking up a token's `is_safe` after a mapped update. -/
theorem find_is_safe_after_update (rows : List TokenRow) (token_id : PyVal) (b : ℤ)
    (h : rows.any (fun r => sqlEq r.id token_id) = true) :
    ((rows.map fun r => if sqlEq r.id token_id then { r with is_safe := b } else r).find?
      (fun r => sqlEq r.id token_id)).map TokenRow.is_safe = some b := by
  induction rows with
  | nil => simp at h
  | cons a t ih =>
    by_cases ha : sqlEq a.id token_id = true
    · simp only [List.map_cons, ha, if_pos]
      rw [List.find?_cons_of_pos _ (by simpa using ha)]
      rfl
    · have ha0 : sqlEq a.id token_id = false := by
        cases hb : sqlEq a.id token_id
        · rfl
        · exact absurd hb ha
      have h' : t.any (fun r => sqlEq r.id token_id) = true := by
        rw [List.any_cons, ha0, Bool.false_or] at h
        exact h
      simp only [List.map_cons, ha, if_neg, Bool.not_eq_true]
      rw [List.find?_cons_of_neg _ (by simpa using ha)]
      exact ih h'

/-- C4: after `update_security_check(token_id, check)` the stored token's
`is_safe` equals NOT (honeypot OR mint-function OR proxy OR
suspicious-holders): 1 when all four flags are false, 0 when any flag is
true. -/
theorem update_security_check_sets_is_safe (db : Database) (now : ℚ) (token_id : PyVal)
    (s : SecurityData) (h : token_exists db token_id = true) :
    db_is_safe (update_security_check db now token_id s) token_id =
      some (if s.has_honey_pot || s.has_mint_function || s.has_proxy ||
          s.has_suspicious_holders then 0 else 1) := by
  unfold db_is_safe update_security_check
  dsimp only
  rw [find_is_safe_after_update db.tokens token_id _ h]
  cases hh : s.has_honey_pot <;> cases hm : s.has_mint_function <;>
    cases hp : s.has_proxy <;> cases hs : s.has_suspicious_holders <;> rfl

/-- Witness for C4: an all-clear check on a stored token sets `is_safe`
to 1. -/
theorem update_security_check_witness :
    db_is_safe (update_security_check dbBlankId 5 (.leaf (.vStr "")) ⟨false, false, false, false⟩)
        (.leaf (.vStr "")) = some 1 := by
  rw [update_security_check_sets_is_safe dbBlankId 5 (.leaf (.vStr "")) ⟨false, false, false, false⟩
    (by decide)]
  rfl

/-- A needle matches at the front of itself followed by anything. -/
theorem matchesPre_self_append (n t : List Char) : matchesPre n (n ++ t) = true := by
  induction n with
  | nil => rfl
  | cons c cs ih => simp [matchesPre, ih]

/-- A needle is found in itself followed by anything. -/
theorem hasSubstr_self_append (n post : List Char) : hasSubstr n (n ++ post) = true := by
  cases h : n ++ post with
  | nil =>
    have hn : n = [] := by
      cases n
      · rfl
      · simp at h
    subst hn
    rfl
  | cons c t =>
    rw [hasSubstr, ← h, matchesPre_self_append, Bool.true_or]

/-- A needle is found in any string that contains it contiguously. -/
theorem hasSubstr_of_parts (n pre post : List Char) :
    hasSubstr n (pre ++ n ++ post) = true := by
  induction pre with
  | nil => simpa using hasSubstr_self_append n post
  | cons c cs ih =>
    rw [List.cons_append, List.cons_append, hasSubstr, ih, Bool.or_true]

/-- `build_token_data` never yields the filter's `None`: once a source
matched, the result is a record or an exception. -/
theorem build_token_data_ne_none (env : TimeEnv) (token_raw details_raw : PyDict)
    (source : String) : build_token_data env token_raw details_raw source ≠ .ok Option.none := by
  intro h
  unfold build_token_data at h
  cases hv : validate_token details_raw <;> rw [hv] at h <;> simp at h

/-- C5: a listing whose name is missing, or contains neither "pump.fun"
nor "pump.swap" as a case-insensitive substring, is rejected by
`parse_token_details` (it returns `None`); a listing whose name carries a
marker is never rejected by this filter. -/
theorem source_filter (env : TimeEnv) (token_raw details_raw : PyDict) :
    (lookupField token_raw "name" = Option.none →
      parse_token_details env token_raw details_raw = .ok Option.none) ∧
    (∀ name : String,
      lookupField token_raw "name" = some (.leaf (.vStr name)) →
      hasSubstr "pump.fun".data (lowerChars name.data) = false →
      hasSubstr "pump.swap".data (lowerChars name.data) = false →
      parse_token_details env token_raw details_raw = .ok Option.none) ∧
    (∀ name : String,
      lookupField token_raw "name" = some (.leaf (.vStr name)) →
      (hasSubstr "pump.fun".data (lowerChars name.data) = true ∨
        hasSubstr "pump.swap".data (lowerChars name.data) = true) →
      parse_token_details env token_raw details_raw ≠ .ok Option.none) := by
  refine ⟨?_, ?_, ?_⟩
  · intro h
    unfold parse_token_details
    rw [h]
  · intro name hname h1 h2
    unfold parse_token_details
    rw [hname]
    dsimp only
    rw [h1, h2]
    simp
  · intro name hname hmark
    unfold parse_token_details
    rw [hname]
    dsimp only
    by_cases h1 : hasSubstr "pump.fun".data (lowerChars name.data) = true
    · rw [h1]
      simp only [if_true]
      exact build_token_data_ne_none env token_raw details_raw "pump.fun"
    · have h1' : hasSubstr "pump.fun".data (lowerChars name.data) = false :=
        Bool.not_eq_true _ ▸ (by simpa using h1)
      have h2 : hasSubstr "pump.swap".data (lowerChars name.data) = true := by
        rcases hmark with hm | hm
        · exact absurd hm h1
        · exact hm
      rw [h1', h2]
      simp only [Bool.false_eq_true, if_false, if_true]
      exact build_token_data_ne_none env token_raw details_raw "pump.swap"

/-- Witness for C5's filter: no claim hypothesis is vacuous — a markerless
name is rejected, a marker-bearing name is not. -/
theorem source_filter_witness :
    parse_token_details env0 [("name", PyVal.leaf (.vStr "Acme DEX"))] [] = .ok Option.none ∧
    parse_token_details env0 [("name", PyVal.leaf (.vStr "Coin PUMP.FUN"))] [] ≠
      .ok Option.none := by
  constructor
  · exact (source_filter env0 [("name", PyVal.leaf (.vStr "Acme DEX"))] []).2.1 "Acme DEX"
      (by decide) (by decide) (by decide)
  · exact (source_filter env0 [("name", PyVal.leaf (.vStr "Coin PUMP.FUN"))] []).2.2
      "Coin PUMP.FUN" (by decide) (Or.inl (by decide))

/-- The mint flag of every successful validation is the substring test
over the lower-cased printed payload. -/
theorem validate_token_mint_flag (details : PyDict) (sd : SecurityData)
    (h : validate_token details = .ok sd) :
    sd.has_mint_function =
      (hasSubstr "mint".data (lowerChars (pyStr details)) &&
        hasSubstr "enabled".data (lowerChars (pyStr details))) := by
  unfold validate_token at h
  cases h1 : lookupField details "holders" with
  | none => rw [h1] at h; cases h; rfl
  | some hv =>
    rw [h1] at h
    cases hv with
    | dict holders =>
      dsimp only at h
      cases h2 : lookupField holders "top10" with
      | none => rw [h2] at h; cases h; rfl
      | some tv =>
        rw [h2] at h
        cases tv with
        | vStr str10 =>
          dsimp only at h
          cases h3 : parseDecimal (str10.replace "%" "") with
          | none => rw [h3] at h; exact Except.noConfusion h
          | some p => rw [h3] at h; cases h; rfl
        | vNone => exact Except.noConfusion h
        | vBool b => exact Except.noConfusion h
        | vNum q => exact Except.noConfusion h
    | leaf lv =>
      cases lv with
      | vStr hs =>
        dsimp only at h
        by_cases h4 : hasSubstr "top10".data hs.data = true
        · rw [if_pos h4] at h; exact Except.noConfusion h
        · rw [if_neg h4] at h; cases h; rfl
      | vNone => exact Except.noConfusion h
      | vBool b => exact Except.noConfusion h
      | vNum q => exact Except.noConfusion h

/-- An entry of a joined field list occurs contiguously in the join. -/
theorem joinFields_mem_parts (entries : List (List Char)) (e : List Char)
    (he : e ∈ entries) : ∃ pre post, joinFields entries = pre ++ (e ++ post) := by
  induction entries with
  | nil => cases he
  | cons x rest ih =>
    cases rest with
    | nil =>
      have hx : e = x := by simpa using he
      exact ⟨[], [], by simp [joinFields, hx]⟩
    | cons y t =>
      rcases List.mem_cons.mp he with rfl | hmem
      · exact ⟨[], ',' :: ' ' :: joinFields (y :: t), by simp [joinFields]⟩
      · obtain ⟨pre, post, hpp⟩ := ih hmem
        exact ⟨x ++ ',' :: ' ' :: pre, post, by simp [joinFields, hpp]⟩

/-- The name of every key of a payload occurs contiguously in `str(d)`. -/
theorem pyStr_contains_key (d : PyDict) (k : String) (v : PyVal)
    (hmem : (k, v) ∈ d) : ∃ pre post, pyStr d = pre ++ (k.data ++ post) := by
  have he : entryRepr k (valRepr v) ∈ d.map (fun e => entryRepr e.1 (valRepr e.2)) :=
    List.mem_map.mpr ⟨(k, v), hmem, rfl⟩
  obtain ⟨pre, post, hpp⟩ := joinFields_mem_parts _ _ he
  refine ⟨obr :: pre ++ [sq], sq :: ':' :: ' ' :: (valRepr v ++ (post ++ [cbr])), ?_⟩
  rw [pyStr, hpp, entryRepr]
  simp

/-- C10 (implicit): the mint-function flag is computed over the textual
representation of the whole details payload, so any payload carrying the
key name "mintEnabled" — whatever its value, including `False` — makes the
evaluator report `has_mint_function = true`, the key name itself providing
both the "mint" and the "enabled" substrings after lowercasing. -/
theorem mintEnabled_key_forces_flag (details : PyDict) (v : PyVal) (sd : SecurityData)
    (hmem : ("mintEnabled", v) ∈ details)
    (hok : validate_token details = .ok sd) :
    sd.has_mint_function = true := by
  obtain ⟨pre, post, hpp⟩ := pyStr_contains_key details "mintEnabled" v hmem
  have hsplit : lowerChars (pyStr details) =
      (lowerChars pre ++ "mint".data) ++ ("enabled".data ++ lowerChars post) := by
    rw [hpp, lowerChars, List.map_append, List.map_append]
    have : lowerChars "mintEnabled".data = "mint".data ++ "enabled".data := by decide
    rw [← lowerChars, ← lowerChars, ← lowerChars, this]
    simp
  have hmint : hasSubstr "mint".data (lowerChars (pyStr details)) = true := by
    rw [hsplit]
    simpa using hasSubstr_of_parts "mint".data (lowerChars pre)
      ("enabled".data ++ lowerChars post)
  have henabled : hasSubstr "enabled".data (lowerChars (pyStr details)) = true := by
    rw [hsplit]
    simpa using hasSubstr_of_parts "enabled".data (lowerChars pre ++ "mint".data)
      (lowerChars post)
  rw [validate_token_mint_flag details sd hok, hmint, henabled]
  rfl

/-- Witness for C10: a payload whose only entry is `mintEnabled: False`
still gets the mint flag. -/
theorem mintEnabled_key_forces_flag_witness :
    ∃ sd, validate_token [("mintEnabled", PyVal.leaf (.vBool false))] = .ok sd ∧
      sd.has_mint_function = true := by
  refine ⟨⟨false, true, false, false⟩, by rfl, ?_⟩
  exact mintEnabled_key_forces_flag [("mintEnabled", PyVal.leaf (.vBool false))]
    (PyVal.leaf (.vBool false)) ⟨false, true, false, false⟩ (by decide) (by rfl)

/-- `validate_token` succeeds on every payload whose holders entry is
well-formed. -/
theorem validate_token_ok_of_wf (details_raw : PyDict)
    (h : holders_wellformed details_raw = true) :
    (validate_token details_raw).isOk = true := by
  unfold holders_wellformed at h
  unfold validate_token
  dsimp only
  cases h1 : lookupField details_raw "holders" with
  | none => rfl
  | some hv =>
    rw [h1] at h
    cases hv with
    | dict holders =>
      dsimp only at h ⊢
      cases h2 : lookupField holders "top10" with
      | none => rfl
      | some tv =>
        rw [h2] at h
        cases tv with
        | vStr s10 =>
          dsimp only at h ⊢
          cases h3 : parseDecimal (s10.replace "%" "") with
          | none => rw [h3] at h; exact Bool.noConfusion h
          | some p => rfl
        | vNone => exact Bool.noConfusion h
        | vBool b => exact Bool.noConfusion h
        | vNum q => exact Bool.noConfusion h
    | leaf lv =>
      cases lv with
      | vStr hs =>
        dsimp only at h ⊢
        have h5 : hasSubstr "top10".data hs.data = false := by
          cases hb : hasSubstr "top10".data hs.data
          · rfl
          · rw [hb] at h; exact Bool.noConfusion h
        rw [if_neg (by rw [h5]; exact Bool.false_ne_true)]
        rfl
      | vNone => exact Bool.noConfusion h
      | vBool b => exact Bool.noConfusion h
      | vNum q => exact Bool.noConfusion h

/-- C6 (amended): for every listing passing the source filter, building
with any payload whose holders entry is well-formed (in particular the
empty payload) succeeds, and the raw fields read with a `.get` default do
default on absence — numerics to 0, `ownerRenounced` to false, text to
"Unknown" — but an absent `mintEnabled` defaults to True, so the built
record reads mint as ENABLED ("Yes ⚠️"), not as a not-enabled mint. -/
theorem parse_absent_fields_defaults (env : TimeEnv) (token_raw : PyDict) (name : String)
    (hname : lookupField token_raw "name" = some (.leaf (.vStr name)))
    (hmark : hasSubstr "pump.fun".data (lowerChars name.data) = true) :
    (∀ details_raw : PyDict, holders_wellformed details_raw = true →
      (parse_token_details env token_raw details_raw).isOk = true) ∧
    (∃ td pd sd, parse_token_details env token_raw [] = .ok (some (td, pd, sd)) ∧
      td.mint_enabled = "Yes ⚠️" ∧
      td.deployer = .leaf (.vStr "Unknown") ∧
      td.owner_renounced = .leaf (.vBool false) ∧
      td.liq_burned = .leaf (.vNum 0) ∧
      td.buys = .leaf (.vNum 0) ∧
      td.sells = .leaf (.vNum 0) ∧
      td.transaction_count = .leaf (.vNum 0) ∧
      td.holders_count = .leaf (.vNum 0) ∧
      pd.holders = .leaf (.vNum 0) ∧
      sd = ⟨false, false, false, false⟩ ∧
      td.id = pyGet token_raw "id" (.leaf (.vStr "")) ∧
      td.pair_name = pyGet token_raw "name" (.leaf (.vStr "Unknown"))) := by
  have hparse : ∀ details_raw : PyDict, parse_token_details env token_raw details_raw =
      build_token_data env token_raw details_raw "pump.fun" := by
    intro dr
    unfold parse_token_details
    rw [hname]
    dsimp only
    rw [hmark]
    simp
  constructor
  · intro dr hwf
    rw [hparse]
    unfold build_token_data
    have hok := validate_token_ok_of_wf dr hwf
    cases hv : validate_token dr with
    | error e => rw [hv] at hok; exact Bool.noConfusion hok
    | ok sd => rfl
  · rw [hparse]
    unfold build_token_data
    have hv : validate_token ([] : PyDict) = .ok ⟨false, false, false, false⟩ := by rfl
    rw [hv]
    exact ⟨_, _, _, rfl, rfl, rfl, rfl, rfl, rfl, rfl, rfl, rfl, rfl, rfl, rfl, rfl⟩

/-- Witness for C6's amended claim: a concrete accepted listing with a
well-formed holders payload builds successfully. -/
theorem parse_absent_fields_defaults_witness :
    (parse_token_details env0 [("name", PyVal.leaf (.vStr "pump.fun"))]
      [("holders", PyVal.dict [("top10", .vStr "85%")])]).isOk = true :=
  (parse_absent_fields_defaults env0 [("name", PyVal.leaf (.vStr "pump.fun"))] "pump.fun"
    (by rfl) (by decide)).1 [("holders", PyVal.dict [("top10", .vStr "85%")])]
    (by with_unfolding_all rfl)

/-- C6 counterexample: for an accepted listing with the empty details
payload — so `mintEnabled` is absent — the built record reads
"Yes ⚠️" (mint enabled), refuting "an absent mintEnabled field defaults
to a not-enabled mint". -/
theorem absent_mintEnabled_reads_enabled :
    parsed_mint_label env0 [("name", PyVal.leaf (.vStr "pump.fun"))] [] = some "Yes ⚠️" ∧
    ("Yes ⚠️" : String) ≠ "No ✅" := by
  constructor
  · with_unfolding_all rfl
  · decide

/-- C3 (amended): an uncaught error while processing one token aborts the
remaining tokens of that cycle — `check_new_listings` stops at the failing
candidate, whatever follows — but `run`'s guard catches it, so the loop
survives the iteration and answers with the doubled sleep interval. -/
theorem token_error_aborts_cycle_loop_survives (env : CycleEnv) (st : MonitorState)
    (token : PyDict) (rest : List PyDict) (e : String)
    (herr : (process_listing env st token).error = some e) :
    check_new_listings env st (token :: rest) =
      ⟨(process_listing env st token).state, (process_listing env st token).detail_fetches,
        (process_listing env st token).alerts, some e⟩ ∧
    run_iteration env st (token :: rest) =
      ((process_listing env st token).state, CHECK_INTERVAL * 2) := by
  have h1 : check_new_listings env st (token :: rest) =
      ⟨(process_listing env st token).state, (process_listing env st token).detail_fetches,
        (process_listing env st token).alerts, some e⟩ := by
    unfold check_new_listings
    dsimp only
    rw [herr]
  refine ⟨h1, ?_⟩
  unfold run_iteration
  dsimp only
  rw [h1]

/-- Witness for C3's amended claim, at the concrete duplicate-insert
input. -/
theorem token_error_aborts_witness :
    check_new_listings envEmptyDetails ⟨dbBlankId, []⟩ [tokenNoId, tokenB] =
      ⟨(process_listing envEmptyDetails ⟨dbBlankId, []⟩ tokenNoId).state,
        (process_listing envEmptyDetails ⟨dbBlankId, []⟩ tokenNoId).detail_fetches,
        (process_listing envEmptyDetails ⟨dbBlankId, []⟩ tokenNoId).alerts,
        some "IntegrityError"⟩ :=
  (token_error_aborts_cycle_loop_survives envEmptyDetails ⟨dbBlankId, []⟩ tokenNoId [tokenB]
    "IntegrityError" (by with_unfolding_all rfl)).1

/-- C3 counterexample: the listing without an `"id"` key passes the
`exists` check (`token.get("id")` is `None`, which SQL `=` never matches)
yet collides on insert with the stored id `""`; the IntegrityError aborts
the cycle, so the following healthy candidate is neither fetched nor
stored — though processing it alone would succeed and store it. -/
theorem error_does_abort_remaining_tokens :
    (check_new_listings envEmptyDetails ⟨dbBlankId, []⟩ [tokenNoId, tokenB]).error =
      some "IntegrityError" ∧
    (check_new_listings envEmptyDetails ⟨dbBlankId, []⟩ [tokenNoId, tokenB]).detail_fetches =
      [.leaf .vNone] ∧
    token_exists (check_new_listings envEmptyDetails ⟨dbBlankId, []⟩
      [tokenNoId, tokenB]).state.db (.leaf (.vStr "b")) = false ∧
    (check_new_listings envEmptyDetails ⟨dbBlankId, []⟩ [tokenB]).error = Option.none ∧
    token_exists (check_new_listings envEmptyDetails ⟨dbBlankId, []⟩ [tokenB]).state.db
      (.leaf (.vStr "b")) = true := by
  refine ⟨?_, ?_, ?_, ?_, ?_⟩ <;> with_unfolding_all rfl

end DexMonitor
